import Mathlib

/-
  Shallow embedding of `src/cmon.py` (connection monitor).

  The program probes a host with ICMP echo, classifies every probe outcome
  (function `diagnostic`, lines 128-143), feeds the classified signal into a
  state machine kept in the local variables of `monitor`
  (`currentstate`, `uptime`, `downtime`, `errcount`, lines 118-120 and
  178-191, with the helper closures `lost` and `recovered`), writes a CSV
  record per probe (`CSVLog`, lines 71-111), sleeps the remaining interval
  budget (lines 170, 192-193) and finally returns an exit code
  (line 194 for `monitor`, lines 197-215 for `run`).

  Timestamps and durations are modelled as rationals, counters as naturals.
  Log messages are modelled as emitted transition events carrying the
  duration that the corresponding f-string interpolates; the CSV file is
  modelled as its content string together with the file position.
-/

namespace Cmon

/-- `class ConnectionState(enum.Enum)` with members `DOWN = 0`, `UP = 1`
(cmon.py lines 19-21). -/
inductive ConnectionState where
  | DOWN
  | UP
deriving DecidableEq

/-- Kind of an emitted transition log line: `lost` emits a `... DOWN ...`
warning, `recovered` emits a `... UP ...` warning. -/
inductive EventKind where
  | DOWN
  | UP
deriving DecidableEq

/-- A transition log line (`logger.warning` in `lost` / `recovered`),
abstracted to its kind and the optional duration it interpolates
(`uptime`-so-far for a DOWN line, `downtime`-so-far for an UP line;
`none` when the message carries no duration). -/
structure Event where
  kind : EventKind
  duration : Option ℚ
deriving DecidableEq

/-- The mutable state of `monitor` (cmon.py lines 118-120):
`currentstate = None`, `uptime = downtime = None`, `errcount = 0`.
`none` for `currentstate` is Python's `None`, the UNKNOWN state. -/
structure Session where
  currentstate : Option ConnectionState
  uptime : Option ℚ
  downtime : Option ℚ
  errcount : ℕ
deriving DecidableEq

/-- Initial session state at the top of `monitor` (lines 118-120). -/
def initSession : Session := ⟨none, none, none, 0⟩

/-- `lost(up_time)` (lines 145-151): logs `f'{host} DOWN{up_for}'` where
`up_for` carries `duration = downtime - up_time` when both the passed
`up_time` and the nonlocal `downtime` are set. -/
def lost (up_time : Option ℚ) (downtime : Option ℚ) : Event :=
  ⟨EventKind.DOWN,
    match up_time, downtime with
    | some u, some d => some (d - u)
    | _, _ => none⟩

/-- `recovered(current)` (lines 153-162): sets `uptime = current`, logs
`f'{host} UP{down_for}'` with `duration = current - downtime` when the
nonlocal `downtime` is set, then resets `errcount = 0` and clears
`downtime = None`. Returns the updated session and the emitted event. -/
def recovered (s : Session) (current : ℚ) : Session × Event :=
  ({ s with uptime := some current, errcount := 0, downtime := none },
   ⟨EventKind.UP, s.downtime.map fun d => current - d⟩)

/-- One state-machine update of `monitor` (lines 178-191), applied to the
classified `newstate` of the current probe with `starttime` the time taken
just before the probe was sent. Returns the updated session and the
transition event emitted by `lost` / `recovered`, if any. -/
def observe (errors : ℕ) (s : Session) (newstate : ConnectionState)
    (starttime : ℚ) : Session × Option Event :=
  if s.currentstate ≠ some ConnectionState.DOWN then
    if newstate = ConnectionState.DOWN then
      let downtime1 : Option ℚ :=
        if s.downtime = none then some starttime else s.downtime
      let errcount1 : ℕ := s.errcount + 1
      if errcount1 ≥ errors then
        ({ s with currentstate := some newstate, downtime := downtime1,
                  errcount := errcount1 },
         some (lost s.uptime downtime1))
      else
        ({ s with downtime := downtime1, errcount := errcount1 }, none)
    else if s.currentstate ≠ some ConnectionState.UP then
      let p := recovered s starttime
      ({ p.1 with currentstate := some newstate }, some p.2)
    else
      (s, none)
  else if newstate = ConnectionState.UP then
    let p := recovered s starttime
    ({ p.1 with currentstate := some newstate }, some p.2)
  else
    (s, none)

/-- One abstract loop iteration input: the classified state produced by
`diagnostic` for this probe, and the `starttime` clock reading of the
iteration (line 172). -/
structure Step where
  newstate : ConnectionState
  starttime : ℚ
deriving DecidableEq

/-- Folding one `Step` into the session, accumulating emitted events. -/
def stepFold (errors : ℕ) (p : Session × List Event) (st : Step) :
    Session × List Event :=
  let r := observe errors p.1 st.newstate st.starttime
  (r.1, p.2 ++ r.2.toList)

/-- Run a trace of steps from an arbitrary session state. -/
def runFrom (errors : ℕ) (s : Session) (trace : List Step) :
    Session × List Event :=
  trace.foldl (stepFold errors) (s, [])

/-- Run a trace of steps from the initial session state, as `monitor`'s
loop does. -/
def runSession (errors : ℕ) (trace : List Step) : Session × List Event :=
  runFrom errors initSession trace

/-- The value returned by `monitor` (line 194):
`0 if currentstate is ConnectionState.UP else 1`. -/
def monitorReturn (errors : ℕ) (trace : List Step) : ℕ :=
  if (runSession errors trace).1.currentstate = some ConnectionState.UP
  then 0 else 1

/-- The value returned by `run` (lines 197-215): `run` calls
`monitor(...)` on line 210 without using its result and ends with
`return 0` on line 215. -/
def runReturn (errors : ℕ) (trace : List Step) : ℕ :=
  let _ := monitorReturn errors trace
  0

/-- The sent packet `IP(dst=host)/ICMP()` as `diagnostic` reads it:
its destination `dst` and its send timestamp `sent_time` (seconds). -/
structure SentPacket where
  dst : String
  sent_time : ℚ
deriving DecidableEq

/-- The received reply as `diagnostic` reads it: source address `src`,
ICMP `type`, and receive timestamp `time` (seconds). -/
structure RecvPacket where
  src : String
  type : ℕ
  time : ℚ
deriving DecidableEq

/-- The `result` string computed by `diagnostic` (lines 131-138),
abstracted to its f-string template and interpolated data:
`'timeout'`, `f'error {e}: {e.args}'`, `f'not reachable {rcvd.src}
type={rcvd.type}'`, or `'success'`. -/
inductive DiagResult where
  | timeout
  | error (e : String)
  | notReachable (src : String) (icmpType : ℕ)
  | success
deriving DecidableEq

/-- Python `int(x)`: truncation toward zero. -/
def pyInt (q : ℚ) : ℤ := if 0 ≤ q then ⌊q⌋ else ⌈q⌉

/-- `in_milliseconds(value)` (lines 122-123):
`int(value * 1000000) / 1000`. -/
def in_milliseconds (value : ℚ) : ℚ := (pyInt (value * 1000000) : ℚ) / 1000

/-- `getstate(c)` (lines 125-126):
`'U' if c == UP else 'D' if c == DOWN else 'U'`. -/
def getstate (c : ConnectionState) : Char :=
  if c = ConnectionState.UP then 'U'
  else if c = ConnectionState.DOWN then 'D'
  else 'U'

/-- The pure classification part of `diagnostic(sent, rcvd, e)`
(lines 128-143): the resulting `new_state`, `result` text and `rtt`.
The exception argument is abstracted to an optional message string
(an exception object is always truthy, so `elif e:` tests presence). -/
def diagnostic (sent : SentPacket) (rcvd : Option RecvPacket)
    (e : Option String) : ConnectionState × DiagResult × Option ℚ :=
  match rcvd with
  | none => (ConnectionState.DOWN, DiagResult.timeout, none)
  | some r =>
    match e with
    | some err => (ConnectionState.DOWN, DiagResult.error err, none)
    | none =>
      if r.src ≠ sent.dst then
        (ConnectionState.DOWN, DiagResult.notReachable r.src r.type, none)
      else
        (ConnectionState.UP, DiagResult.success,
         some (in_milliseconds (r.time - sent.sent_time)))

/-- The CSV record written by `CSVLog.add` via the `csv.add(...)` call in
`diagnostic` (line 141): `(sent.sent_time, host, getstate(new_state),
result, rtt)` with `0.0` for a falsy rtt. -/
structure ProbeRecord where
  timestamp : ℚ
  host : String
  state : Char
  status : DiagResult
  rtt : ℚ
deriving DecidableEq

/-- The rtt field as serialized by `CSVLog.add` (line 110):
`0.0 if not rtt else rtt` (both `None` and `0.0` are falsy). -/
def rttField (rtt : Option ℚ) : ℚ :=
  match rtt with
  | none => 0
  | some v => if v = 0 then 0 else v

/-- One full loop iteration of `monitor` (lines 167-193) after the probe
has returned: classify via `diagnostic` (which also emits the CSV probe
record, line 141), then update the session state (lines 178-191).
Returns the new session, the probe record, and the optional transition
event. -/
def iteration (errors : ℕ) (host : String) (s : Session)
    (sent : SentPacket) (rcvd : Option RecvPacket) (e : Option String)
    (starttime : ℚ) : Session × ProbeRecord × Option Event :=
  let d := diagnostic sent rcvd e
  ((observe errors s d.1 starttime).1,
   ⟨sent.sent_time, host, getstate d.1, d.2.1, rttField d.2.2⟩,
   (observe errors s d.1 starttime).2)

/-- `CSVLog.HEADERS` (line 72). -/
def HEADERS : String := "timestamp,host,state,status,rtt\n"

/-- `os.SEEK_CUR` is the integer 1. -/
def SEEK_CUR : ℕ := 1

/-- A writable file modelled by its content and current position. -/
structure FileState where
  content : String
  pos : ℕ
deriving DecidableEq

/-- Python `file.seek(offset, whence)`: `whence = 0` (`os.SEEK_SET`) seeks
to the absolute position `offset`; `whence = 1` (`os.SEEK_CUR`) is
relative to the current position; otherwise relative to the end.
Returns the updated file and the new absolute position. -/
def seek (f : FileState) (offset : ℕ) (whence : ℕ) : FileState × ℕ :=
  if whence = 0 then ({ f with pos := offset }, offset)
  else if whence = 1 then ({ f with pos := f.pos + offset }, f.pos + offset)
  else ({ f with pos := f.content.length + offset }, f.content.length + offset)

/-- `open(filename, mode='a+')` on a file that currently holds `content`
(line 85). The initial position is irrelevant here because the next
operation is an absolute seek; we model it at the end of the file. -/
def openForAppend (content : String) : FileState := ⟨content, content.length⟩

/-- `CSVLog.open` on a file holding `content` (lines 82-94): open for
append, then the header-write check of lines 86-88 — `if
self._fd.seek(os.SEEK_CUR, 0) == 0: self._fd.write(self.HEADERS)`.
Note the call is `seek(os.SEEK_CUR, 0)`: offset `os.SEEK_CUR = 1` with
`whence = 0`, an absolute seek to position 1. -/
def CSVLog.openFile (content : String) : FileState :=
  let f := openForAppend content
  let r := seek f SEEK_CUR 0
  if r.2 = 0 then
    { r.1 with content := r.1.content ++ HEADERS,
               pos := r.1.pos + HEADERS.length }
  else r.1

/-- `endat = time.time() + interval` (line 170), with `t0` the clock
reading at that line. -/
def endat (t0 interval : ℚ) : ℚ := t0 + interval

/-- The sleep performed at lines 192-193:
`if starttime < endat: time.sleep(endat - starttime)`; no sleep
otherwise. -/
def sleepAmount (starttime endatv : ℚ) : ℚ :=
  if starttime < endatv then endatv - starttime else 0

/-- The sleep of one loop iteration as a function of the clock reading
`t0` at line 170, the clock reading `starttime` at line 172 and the
configured `interval`. The duration of the probe itself does not occur:
lines 192-193 compare and subtract `starttime`, captured before the
probe, never a clock reading taken after it. -/
def iterationSleep (t0 starttime interval : ℚ) : ℚ :=
  sleepAmount starttime (endat t0 interval)

/-- Whether an optional emitted event is an UP transition message,
i.e. whether the step went through `recovered`. -/
def isUpEvent : Option Event → Bool
  | some ⟨EventKind.UP, _⟩ => true
  | _ => false

/-- C1: the claim says `run` returns 0 when the final state is UP and 1
otherwise. `monitor` (line 194) does compute `0 if currentstate is
ConnectionState.UP else 1`, but `run` (lines 210, 215) discards
`monitor`'s result and ends with `return 0`: on a session that ends
DOWN (here: threshold 1, one failed probe), `run` still returns 0
while `monitor`'s discarded value is 1. -/
theorem c1_run_exit_code :
    runReturn 1 [⟨ConnectionState.DOWN, 0⟩] = 0 ∧
    monitorReturn 1 [⟨ConnectionState.DOWN, 0⟩] = 1 ∧
    (runSession 1 [⟨ConnectionState.DOWN, 0⟩]).1.currentstate =
      some ConnectionState.DOWN := by
  refine ⟨rfl, ?_, ?_⟩ <;>
    simp +decide [monitorReturn, runSession, runFrom, stepFold, observe,
      lost, initSession]

/-- C2: the claim says an iteration whose probe takes `d < interval`
seconds sleeps `interval - d`. The sleep computed by lines 192-193 uses
`starttime` (captured before the probe, line 172), never a clock reading
taken after the probe, so the probe duration cannot influence it: with
`interval = 1`, both clock readings at 0, and a probe that takes
`d = 1/2` seconds, the code sleeps 1 second, not `1 - 1/2`. -/
theorem c2_sleep_ignores_probe_duration :
    iterationSleep 0 0 1 = 1 ∧ (1 : ℚ) ≠ 1 - 1 / 2 := by
  constructor
  · norm_num [iterationSleep, sleepAmount, endat]
  · norm_num

/-- C3: the claim says the header line is written when the sink opens a
new/empty file. Line 87 calls `self._fd.seek(os.SEEK_CUR, 0)` — an
absolute seek to offset `os.SEEK_CUR = 1`, which returns 1, never 0 —
so the guard `== 0` of the header write is never satisfied: opening an
empty file leaves its content empty (no header), and opening a
non-empty file leaves it unchanged as well. -/
theorem c3_header_never_written :
    (CSVLog.openFile "").content = "" ∧
    (CSVLog.openFile "").content ≠ HEADERS ∧
    (CSVLog.openFile "x").content = "x" := by
  refine ⟨?_, ?_, ?_⟩ <;>
    simp [CSVLog.openFile, openForAppend, seek, SEEK_CUR, HEADERS]

/-- C4 counterexample: the claim says the first `reachable=true` signal
from the initial UNKNOWN state emits no transition event and produces no
log message. The code reaches `recovered` (lines 186-188), which calls
`logger.warning(f'{host} UP{down_for}')`: an UP event is emitted. -/
theorem c4_baseline_emits_event :
    (observe 4 initSession ConnectionState.UP 5).2 ≠ none := by
  simp [observe, recovered, initSession]

/-- C5 counterexample: the claim says a DOWN transition with known
`upSince` reports `probeTimestamp - upSince` where `probeTimestamp` is
the threshold-reaching probe's timestamp. With threshold 2, UP at time
0, failures at times 10 and 20, the DOWN event emitted by the probe at
time 20 reports duration `downtime - uptime = 10 - 0 = 10` (lines
148-150), not `20 - 0 = 20`. -/
theorem c5_duration_counterexample :
    (runSession 2 [⟨ConnectionState.UP, 0⟩, ⟨ConnectionState.DOWN, 10⟩,
        ⟨ConnectionState.DOWN, 20⟩]).2 =
      [⟨EventKind.UP, none⟩, ⟨EventKind.DOWN, some 10⟩] ∧
    (10 : ℚ) ≠ 20 - 0 := by
  constructor
  · simp +decide [runSession, runFrom, stepFold, observe, lost, recovered,
      initSession]
  · norm_num

/-- C6 counterexample: the claim says that with threshold 4 a run of
exactly three consecutive failures never emits a DOWN event. In the
trace UP@0, fail@1, UP@2, fail@3, fail@4, fail@5, the trailing three
signals are a run of exactly three consecutive failures (preceded by a
success), yet a DOWN event is emitted at its last signal: the success
at time 2 does not reset `errcount` (lines 186-188 only call
`recovered` when `currentstate` is not already UP), so the counter
reaches 4 after only three consecutive failures. -/
theorem c6_three_failures_counterexample :
    (runSession 4 [⟨ConnectionState.UP, 0⟩, ⟨ConnectionState.DOWN, 1⟩,
        ⟨ConnectionState.UP, 2⟩]).2 = [⟨EventKind.UP, none⟩] ∧
    (runSession 4 [⟨ConnectionState.UP, 0⟩, ⟨ConnectionState.DOWN, 1⟩,
        ⟨ConnectionState.UP, 2⟩, ⟨ConnectionState.DOWN, 3⟩,
        ⟨ConnectionState.DOWN, 4⟩]).2 = [⟨EventKind.UP, none⟩] ∧
    (runSession 4 [⟨ConnectionState.UP, 0⟩, ⟨ConnectionState.DOWN, 1⟩,
        ⟨ConnectionState.UP, 2⟩, ⟨ConnectionState.DOWN, 3⟩,
        ⟨ConnectionState.DOWN, 4⟩, ⟨ConnectionState.DOWN, 5⟩]).2 =
      [⟨EventKind.UP, none⟩, ⟨EventKind.DOWN, some 1⟩] := by
  refine ⟨?_, ?_, ?_⟩ <;>
    simp +decide [runSession, runFrom, stepFold, observe, lost, recovered,
      initSession]

/-- C8 counterexample: the claim says `downSince` is assigned exactly
once per DOWN streak, at the streak's first failure. In the trace UP@0,
fail@1, UP@2, fail@3, the failure at time 3 is the first failure of a
new consecutive-failure streak, yet `downtime` still holds 1 (the
intervening success at time 2 caused no transition, so lines 153-162
never cleared it, and line 180 only assigns when it is `None`). -/
theorem c8_downsince_counterexample :
    (runSession 4 [⟨ConnectionState.UP, 0⟩, ⟨ConnectionState.DOWN, 1⟩,
        ⟨ConnectionState.UP, 2⟩, ⟨ConnectionState.DOWN, 3⟩]).1 =
      ⟨some ConnectionState.UP, some 0, some 1, 2⟩ ∧
    (some (1 : ℚ) : Option ℚ) ≠ some 3 := by
  constructor
  · simp +decide [runSession, runFrom, stepFold, observe, lost, recovered,
      initSession]
  · norm_num

/-- C4 (amended): from the initial UNKNOWN state (`currentstate = None`),
a `reachable=true` signal transitions to UP, sets `uptime` to the probe
timestamp and resets the session, but it does emit an UP transition
event (the `logger.warning` of `recovered`, line 160), carrying the
elapsed down duration when failures preceded it and nothing otherwise. -/
theorem c4_unknown_up_transition (errors : ℕ) (s : Session) (t : ℚ)
    (h : s.currentstate = none) :
    observe errors s ConnectionState.UP t =
      (⟨some ConnectionState.UP, some t, none, 0⟩,
       some ⟨EventKind.UP, s.downtime.map fun d => t - d⟩) := by
  simp [observe, recovered, h]

/-- C4 witness: the amended theorem at the initial session and probe
time 3. -/
theorem c4_unknown_up_transition_witness :
    observe 4 initSession ConnectionState.UP 3 =
      (⟨some ConnectionState.UP, some 3, none, 0⟩,
       some ⟨EventKind.UP, initSession.downtime.map fun d => 3 - d⟩) :=
  c4_unknown_up_transition 4 initSession 3 rfl

/-- C5 (amended): when the error threshold is reached outside the DOWN
state and `uptime` is known, the emitted DOWN event reports
`downtime - uptime`, where `downtime` is the timestamp of the streak's
first failure (assigned at line 181, or the current probe's `starttime`
when the streak starts now), not the threshold-reaching probe's
timestamp. -/
theorem c5_down_event_duration (errors : ℕ) (s : Session) (t u : ℚ)
    (h1 : s.currentstate ≠ some ConnectionState.DOWN)
    (h2 : s.uptime = some u) (h3 : s.errcount + 1 ≥ errors) :
    observe errors s ConnectionState.DOWN t =
      (⟨some ConnectionState.DOWN, some u, some (s.downtime.getD t),
        s.errcount + 1⟩,
       some ⟨EventKind.DOWN, some (s.downtime.getD t - u)⟩) := by
  rcases s with ⟨cs, ut, dt, ec⟩
  obtain rfl : ut = some u := h2
  simp only at h1
  rcases dt with _ | d0 <;> simp [observe, lost, h1, h3]

/-- C5 witness: threshold 2, UP since time 0, first failure recorded at
time 10, threshold-reaching probe at time 20: the DOWN event reports
`10 - 0`. -/
theorem c5_down_event_duration_witness :
    observe 2 ⟨some ConnectionState.UP, some 0, some 10, 1⟩
        ConnectionState.DOWN 20 =
      (⟨some ConnectionState.DOWN, some 0, some 10, 2⟩,
       some ⟨EventKind.DOWN, some (10 - 0)⟩) :=
  c5_down_event_duration 2 ⟨some ConnectionState.UP, some 0, some 10, 1⟩ 20 0
    (by decide) rfl (by decide)

/-- C6 (amended): with threshold 4, a run of three consecutive failures
beginning with `errcount = 0` (as at session start or right after a
confirmed UP transition) emits no DOWN event, and continuing the run
emits exactly one DOWN event, at its fourth failure, with no further
event while the streak continues. The zero-counter precondition is
needed because `errcount` survives successes that cause no transition. -/
theorem c6_threshold_debounce (s : Session) (t1 t2 t3 t4 t5 : ℚ)
    (h0 : s.errcount = 0) (h1 : s.currentstate ≠ some ConnectionState.DOWN) :
    (runFrom 4 s [⟨ConnectionState.DOWN, t1⟩, ⟨ConnectionState.DOWN, t2⟩,
        ⟨ConnectionState.DOWN, t3⟩]).2 = [] ∧
    (runFrom 4 s [⟨ConnectionState.DOWN, t1⟩, ⟨ConnectionState.DOWN, t2⟩,
        ⟨ConnectionState.DOWN, t3⟩, ⟨ConnectionState.DOWN, t4⟩]).2 =
      [⟨EventKind.DOWN, s.uptime.map fun u => s.downtime.getD t1 - u⟩] ∧
    (runFrom 4 s [⟨ConnectionState.DOWN, t1⟩, ⟨ConnectionState.DOWN, t2⟩,
        ⟨ConnectionState.DOWN, t3⟩, ⟨ConnectionState.DOWN, t4⟩,
        ⟨ConnectionState.DOWN, t5⟩]).2 =
      [⟨EventKind.DOWN, s.uptime.map fun u => s.downtime.getD t1 - u⟩] := by
  rcases s with ⟨cs, ut, dt, ec⟩
  obtain rfl : ec = 0 := h0
  simp only at h1
  rcases dt with _ | d0 <;> rcases ut with _ | u0 <;>
    simp +decide [runFrom, stepFold, observe, lost, h1]

/-- C6 witness: the amended theorem from the state right after a baseline
UP at time 0, with failures at times 1..5. -/
theorem c6_threshold_debounce_witness :
    (runFrom 4 ⟨some ConnectionState.UP, some 0, none, 0⟩
        [⟨ConnectionState.DOWN, 1⟩, ⟨ConnectionState.DOWN, 2⟩,
         ⟨ConnectionState.DOWN, 3⟩]).2 = [] ∧
    (runFrom 4 ⟨some ConnectionState.UP, some 0, none, 0⟩
        [⟨ConnectionState.DOWN, 1⟩, ⟨ConnectionState.DOWN, 2⟩,
         ⟨ConnectionState.DOWN, 3⟩, ⟨ConnectionState.DOWN, 4⟩]).2 =
      [⟨EventKind.DOWN, (some (0 : ℚ)).map fun u => (none : Option ℚ).getD 1 - u⟩] ∧
    (runFrom 4 ⟨some ConnectionState.UP, some 0, none, 0⟩
        [⟨ConnectionState.DOWN, 1⟩, ⟨ConnectionState.DOWN, 2⟩,
         ⟨ConnectionState.DOWN, 3⟩, ⟨ConnectionState.DOWN, 4⟩,
         ⟨ConnectionState.DOWN, 5⟩]).2 =
      [⟨EventKind.DOWN, (some (0 : ℚ)).map fun u => (none : Option ℚ).getD 1 - u⟩] :=
  c6_threshold_debounce ⟨some ConnectionState.UP, some 0, none, 0⟩ 1 2 3 4 5
    rfl (by decide)

/-- C7: from the DOWN state a single `reachable=true` signal immediately
transitions to UP: `uptime` becomes the probe timestamp, the emitted UP
event reports `probeTimestamp - downtime`, `errcount` resets to 0 and
`downtime` is cleared (lines 189-191 and 153-162). -/
theorem c7_single_success_recovery (errors : ℕ) (s : Session) (t d : ℚ)
    (h1 : s.currentstate = some ConnectionState.DOWN)
    (h2 : s.downtime = some d) :
    observe errors s ConnectionState.UP t =
      (⟨some ConnectionState.UP, some t, none, 0⟩,
       some ⟨EventKind.UP, some (t - d)⟩) := by
  simp [observe, recovered, h1, h2]

/-- C7 witness: DOWN since time 2 with 5 accumulated errors, success at
time 9: immediate UP with down duration `9 - 2`. -/
theorem c7_single_success_recovery_witness :
    observe 4 ⟨some ConnectionState.DOWN, none, some 2, 5⟩
        ConnectionState.UP 9 =
      (⟨some ConnectionState.UP, some 9, none, 0⟩,
       some ⟨EventKind.UP, some (9 - 2)⟩) :=
  c7_single_success_recovery 4 ⟨some ConnectionState.DOWN, none, some 2, 5⟩
    9 2 rfl rfl

/-- C8 (amended): on every observe step, `errcount` becomes 0 exactly
when an UP transition is confirmed (otherwise it increments on a failure
seen outside DOWN and is unchanged elsewhere); `downtime` is assigned at
a failure seen outside DOWN exactly when it is currently unset — the
first failure since the last confirmed UP transition, not necessarily
the first failure of each consecutive-failure streak — and is cleared
exactly when an UP transition is confirmed; and an UP event is emitted
exactly on the transitions into UP. -/
theorem c8_counter_downsince_discipline (errors : ℕ) (s : Session)
    (ns : ConnectionState) (t : ℚ) :
    ((observe errors s ns t).1.errcount =
      if isUpEvent (observe errors s ns t).2 then 0
      else if ns = ConnectionState.DOWN ∧
          s.currentstate ≠ some ConnectionState.DOWN then s.errcount + 1
      else s.errcount) ∧
    ((observe errors s ns t).1.downtime =
      if isUpEvent (observe errors s ns t).2 then none
      else if ns = ConnectionState.DOWN ∧
          s.currentstate ≠ some ConnectionState.DOWN ∧
          s.downtime = none then some t
      else s.downtime) ∧
    (isUpEvent (observe errors s ns t).2 = true ↔
      ((observe errors s ns t).1.currentstate = some ConnectionState.UP ∧
       s.currentstate ≠ some ConnectionState.UP)) := by
  rcases s with ⟨cs, ut, dt, ec⟩
  by_cases h : ec + 1 ≥ errors <;>
    cases ns <;> rcases cs with _ | c <;> (try cases c) <;>
    rcases dt with _ | d0 <;>
    simp +decide [observe, recovered, lost, isUpEvent, h]

/-- C9: `diagnostic` classifies by the strict four-way priority chain of
lines 131-140, first match winning: no reply means timeout; else a
raised error is reported; else a reply from a source other than the
probed destination is "not reachable"; otherwise success with
`rtt = in_milliseconds(rcvd.time - sent.sent_time)`. -/
theorem c9_classifier_priority (sent : SentPacket) (rcvd : Option RecvPacket)
    (e : Option String) :
    (rcvd = none → diagnostic sent rcvd e =
      (ConnectionState.DOWN, DiagResult.timeout, none)) ∧
    (∀ r err, rcvd = some r → e = some err → diagnostic sent rcvd e =
      (ConnectionState.DOWN, DiagResult.error err, none)) ∧
    (∀ r, rcvd = some r → e = none → r.src ≠ sent.dst →
      diagnostic sent rcvd e =
        (ConnectionState.DOWN, DiagResult.notReachable r.src r.type, none)) ∧
    (∀ r, rcvd = some r → e = none → r.src = sent.dst →
      diagnostic sent rcvd e =
        (ConnectionState.UP, DiagResult.success,
         some (in_milliseconds (r.time - sent.sent_time)))) := by
  refine ⟨?_, ?_, ?_, ?_⟩
  · rintro rfl
    simp [diagnostic]
  · rintro r err rfl rfl
    simp [diagnostic]
  · rintro r rfl rfl h
    simp [diagnostic, h]
  · rintro r rfl rfl h
    simp [diagnostic, h]

/-- C9 witness: the four priority cases at concrete packets probing
8.8.8.8 at time 0. -/
theorem c9_classifier_priority_witness :
    diagnostic ⟨"8.8.8.8", 0⟩ none none =
      (ConnectionState.DOWN, DiagResult.timeout, none) ∧
    diagnostic ⟨"8.8.8.8", 0⟩ (some ⟨"10.0.0.1", 11, 2⟩) (some "oops") =
      (ConnectionState.DOWN, DiagResult.error "oops", none) ∧
    diagnostic ⟨"8.8.8.8", 0⟩ (some ⟨"10.0.0.1", 11, 2⟩) none =
      (ConnectionState.DOWN, DiagResult.notReachable "10.0.0.1" 11, none) ∧
    diagnostic ⟨"8.8.8.8", 0⟩ (some ⟨"8.8.8.8", 0, 2⟩) none =
      (ConnectionState.UP, DiagResult.success,
       some (in_milliseconds ((⟨"8.8.8.8", 0, 2⟩ : RecvPacket).time -
         (⟨"8.8.8.8", 0⟩ : SentPacket).sent_time))) :=
  ⟨(c9_classifier_priority ⟨"8.8.8.8", 0⟩ none none).1 rfl,
   (c9_classifier_priority ⟨"8.8.8.8", 0⟩ (some ⟨"10.0.0.1", 11, 2⟩)
      (some "oops")).2.1 _ _ rfl rfl,
   (c9_classifier_priority ⟨"8.8.8.8", 0⟩ (some ⟨"10.0.0.1", 11, 2⟩)
      none).2.2.1 _ rfl rfl (by decide),
   (c9_classifier_priority ⟨"8.8.8.8", 0⟩ (some ⟨"8.8.8.8", 0, 2⟩)
      none).2.2.2 _ rfl rfl rfl⟩

/-- C10: while the state is DOWN, a probe classified DOWN changes no
session field — `currentstate`, `uptime`, `downtime` and `errcount` all
keep their values, the counter frozen rather than incremented — and no
transition event is emitted; only the per-probe CSV record is produced
(lines 178 and 189 fall through to no branch). -/
theorem c10_down_failure_frame (errors : ℕ) (host : String) (s : Session)
    (sent : SentPacket) (rcvd : Option RecvPacket) (e : Option String)
    (t : ℚ) (h1 : s.currentstate = some ConnectionState.DOWN)
    (h2 : (diagnostic sent rcvd e).1 = ConnectionState.DOWN) :
    iteration errors host s sent rcvd e t =
      (s, ⟨sent.sent_time, host, 'D', (diagnostic sent rcvd e).2.1,
        rttField (diagnostic sent rcvd e).2.2⟩, none) := by
  simp [iteration, observe, getstate, h1, h2]

/-- C10 witness: a timed-out probe of 8.8.8.8 while DOWN since time 1
with 4 accumulated errors leaves the session untouched and emits only
the CSV record. -/
theorem c10_down_failure_frame_witness :
    iteration 4 "8.8.8.8" ⟨some ConnectionState.DOWN, none, some 1, 4⟩
        ⟨"8.8.8.8", 10⟩ none none 10 =
      (⟨some ConnectionState.DOWN, none, some 1, 4⟩,
       ⟨10, "8.8.8.8", 'D', DiagResult.timeout, 0⟩, none) :=
  c10_down_failure_frame 4 "8.8.8.8" ⟨some ConnectionState.DOWN, none, some 1, 4⟩
    ⟨"8.8.8.8", 10⟩ none none 10 rfl rfl

end Cmon
